import Mathlib

/-!
Shallow embedding of the dual-backend tracking synchronization core of the
`curd` fork (files `internal/tracking.go` and `internal/myanimelist.go`),
together with theorems settling the frozen claims about it.

Network-facing adapter calls (the per-backend HTTP functions) are modelled as
oracle parameters of type `... → Option String`, where `none` is the Go `nil`
error and `some e` is an error whose rendered message is `e`.  Each coordinator
function additionally returns the list of backend invocations it performed, so
that "which adapter methods were called" is part of the observable result.
-/

namespace Curd

/-- Configuration fields read by the tracking core (`CurdConfig` in Go;
only the two fields `tracking.go` consults are modelled). -/
structure CurdConfig where
  TrackingService : String
  DualTracking : Bool
deriving DecidableEq

/-- The two tracking backends. -/
inductive Backend where
  | mal
  | anilist
deriving DecidableEq

/-- Go's `strings.ToLower`, modelled character-wise (ASCII case folding,
which is all the service-name comparisons exercise). -/
def goToLower (s : String) : String :=
  ⟨s.data.map Char.toLower⟩

/-- `GetTrackingService` from `tracking.go` (lines 23-29): lower-cases the
configured service name; `"mal"`/`"myanimelist"` select MAL, everything else
defaults to AniList. -/
def GetTrackingService (config : CurdConfig) : String :=
  let service := goToLower config.TrackingService
  if service = "mal" ∨ service = "myanimelist" then "mal" else "anilist"

/-- `UpdateAnimeProgressUnified` from `tracking.go` (lines 71-91): updates the
primary service and returns its error; the dual-tracking branch is a no-op
that also returns the primary error.  `updateMAL`/`updateAnilist` are the
adapter oracles `UpdateMALAnimeProgress`/`UpdateAnimeProgress`.  The first
component records which backends were invoked. -/
def UpdateAnimeProgressUnified
    (updateMAL updateAnilist : String → Int → Int → Option String)
    (token : String) (mediaID progress : Int) (config : CurdConfig) :
    List Backend × Option String :=
  let primary :=
    if GetTrackingService config = "mal" then
      ([Backend.mal], updateMAL token mediaID progress)
    else
      ([Backend.anilist], updateAnilist token mediaID progress)
  if !config.DualTracking then
    primary
  else
    primary

/-- `UpdateAnimeProgressDual` from `tracking.go` (lines 94-144).  When dual
tracking is off it dispatches to the single primary backend; when on, it tries
MAL (if its token is nonempty and its ID positive), then AniList likewise,
collecting `"MAL: <err>"` / `"AniList: <err>"` strings and aggregating them
into one `dual tracking errors: ...` error. -/
def UpdateAnimeProgressDual
    (updateMAL updateAnilist : String → Int → Int → Option String)
    (anilistToken malToken : String) (anilistID malID progress : Int)
    (config : CurdConfig) : List Backend × Option String :=
  if !config.DualTracking then
    if GetTrackingService config = "mal" then
      ([Backend.mal], updateMAL malToken malID progress)
    else
      ([Backend.anilist], updateAnilist anilistToken anilistID progress)
  else
    let malStep : List Backend × List String :=
      if malToken ≠ "" ∧ malID > 0 then
        ([Backend.mal],
          match updateMAL malToken malID progress with
          | some e => ["MAL: " ++ e]
          | none => [])
      else ([], [])
    let anilistStep : List Backend × List String :=
      if anilistToken ≠ "" ∧ anilistID > 0 then
        ([Backend.anilist],
          match updateAnilist anilistToken anilistID progress with
          | some e => ["AniList: " ++ e]
          | none => [])
      else ([], [])
    let errs := malStep.2 ++ anilistStep.2
    (malStep.1 ++ anilistStep.1,
      if errs.length > 0 then
        some ("dual tracking errors: " ++ String.intercalate "; " errs)
      else none)

/-- `UpdateAnimeStatusDual` from `tracking.go` (lines 156-193); same shape as
the progress variant, with status-update adapter oracles. -/
def UpdateAnimeStatusDual
    (updateMAL updateAnilist : String → Int → String → Option String)
    (anilistToken malToken : String) (anilistID malID : Int) (status : String)
    (config : CurdConfig) : List Backend × Option String :=
  if !config.DualTracking then
    if GetTrackingService config = "mal" then
      ([Backend.mal], updateMAL malToken malID status)
    else
      ([Backend.anilist], updateAnilist anilistToken anilistID status)
  else
    let malStep : List Backend × List String :=
      if malToken ≠ "" ∧ malID > 0 then
        ([Backend.mal],
          match updateMAL malToken malID status with
          | some e => ["MAL: " ++ e]
          | none => [])
      else ([], [])
    let anilistStep : List Backend × List String :=
      if anilistToken ≠ "" ∧ anilistID > 0 then
        ([Backend.anilist],
          match updateAnilist anilistToken anilistID status with
          | some e => ["AniList: " ++ e]
          | none => [])
      else ([], [])
    let errs := malStep.2 ++ anilistStep.2
    (malStep.1 ++ anilistStep.1,
      if errs.length > 0 then
        some ("dual tracking errors: " ++ String.intercalate "; " errs)
      else none)

/-- `RateAnimeDual` from `tracking.go` (lines 205-242); same shape as the
progress variant, with rating adapter oracles. -/
def RateAnimeDual
    (rateMAL rateAnilist : String → Int → Option String)
    (anilistToken malToken : String) (anilistID malID : Int)
    (config : CurdConfig) : List Backend × Option String :=
  if !config.DualTracking then
    if GetTrackingService config = "mal" then
      ([Backend.mal], rateMAL malToken malID)
    else
      ([Backend.anilist], rateAnilist anilistToken anilistID)
  else
    let malStep : List Backend × List String :=
      if malToken ≠ "" ∧ malID > 0 then
        ([Backend.mal],
          match rateMAL malToken malID with
          | some e => ["MAL: " ++ e]
          | none => [])
      else ([], [])
    let anilistStep : List Backend × List String :=
      if anilistToken ≠ "" ∧ anilistID > 0 then
        ([Backend.anilist],
          match rateAnilist anilistToken anilistID with
          | some e => ["AniList: " ++ e]
          | none => [])
      else ([], [])
    let errs := malStep.2 ++ anilistStep.2
    (malStep.1 ++ anilistStep.1,
      if errs.length > 0 then
        some ("dual tracking errors: " ++ String.intercalate "; " errs)
      else none)

/-- Media record nested in an `Entry`; `tracking.go` reads only `Media.ID`. -/
structure Media where
  ID : Int
deriving DecidableEq

/-- Modelled from the spec: the list `Entry` record (its Go struct definition
is not among the provided source files).  `FindAnimeByIDUnified` examines only
`Media.ID`; `Title` is carried as an inert payload so that distinct entries
with equal IDs remain distinguishable, per the spec's Entry description. -/
structure Entry where
  Media : Media
  Title : String
deriving DecidableEq

/-- The category-partitioned anime list, with the six category fields that
`FindAnimeByIDUnified` in `tracking.go` reads. -/
structure AnimeList where
  Watching : List Entry
  Completed : List Entry
  Paused : List Entry
  Dropped : List Entry
  Planning : List Entry
  Rewatching : List Entry
deriving DecidableEq

/-- Go's `strconv.Atoi` for base 10, over unbounded integers: an optional
single sign followed by at least one decimal digit and nothing else. -/
def goAtoi (s : String) : Option Int :=
  match s.data with
  | [] => none
  | c :: cs =>
    let neg := c = '-'
    let digits := if c = '-' ∨ c = '+' then cs else c :: cs
    if digits = [] ∨ ¬ digits.all Char.isDigit then none
    else
      let n : Nat := digits.foldl (fun acc d => acc * 10 + (d.toNat - 48)) 0
      some (if neg then -(n : Int) else (n : Int))

/-- The nested category/entry scan of `FindAnimeByIDUnified` (`tracking.go`
lines 297-303): first category containing a matching entry wins, first
matching entry within that category wins. -/
def findInCategories (categories : List (List Entry)) (id : Int) : Option Entry :=
  match categories with
  | [] => none
  | c :: rest =>
    match c.find? (fun entry => entry.Media.ID == id) with
    | some entry => some entry
    | none => findInCategories rest id

/-- `FindAnimeByIDUnified` from `tracking.go` (lines 280-306): parse the ID
text, then scan Watching, Completed, Paused, Dropped, Planning, Rewatching in
that order for the first entry with that media ID. -/
def FindAnimeByIDUnified (list : AnimeList) (idStr : String) : Except String Entry :=
  match goAtoi idStr with
  | none => Except.error ("invalid ID format: " ++ idStr)
  | some id =>
    let categories : List (List Entry) :=
      [list.Watching, list.Completed, list.Paused, list.Dropped,
       list.Planning, list.Rewatching]
    match findInCategories categories id with
    | some entry => Except.ok entry
    | none => Except.error ("anime with ID " ++ toString id ++ " not found")

/-- `ListStatus` part of a MAL anime-list entry (`MALAnimeListEntry` in
`myanimelist.go`). -/
structure MALListStatus where
  Status : String
  Score : Int
  NumEpisodesWatched : Int
  IsRewatching : Bool
deriving DecidableEq

/-- `Node` part of a MAL anime-list entry (`MALAnimeListEntry` in
`myanimelist.go`); only the large cover variant is read by the converter. -/
structure MALNode where
  ID : Int
  Title : String
  NumEpisodes : Int
  MainPictureLarge : String
deriving DecidableEq

/-- `MALAnimeListEntry` from `myanimelist.go`. -/
structure MALAnimeListEntry where
  Node : MALNode
  ListStatus : MALListStatus
deriving DecidableEq

/-- One converted entry in the AniList-compatible shape that
`convertMALToAnilistFormat` builds as a nested generic map in Go; here the
same fields as a record. -/
structure AnilistFormatEntry where
  mediaId : Int
  episodes : Int
  duration : Int
  titleRomaji : String
  titleEnglish : String
  titleNative : String
  coverImageLarge : String
  status : String
  score : Int
  progress : Int
deriving DecidableEq

/-- `convertMALToAnilistFormat` from `myanimelist.go` (lines 462-508): per
entry, map the MAL status string to the AniList vocabulary (unknown statuses
default to `CURRENT`), then override with `REPEATING` when the rewatching flag
is set. -/
def convertMALToAnilistFormat (malEntries : List MALAnimeListEntry) :
    List AnilistFormatEntry :=
  malEntries.map (fun malEntry =>
    let base :=
      match malEntry.ListStatus.Status with
      | "watching" => "CURRENT"
      | "completed" => "COMPLETED"
      | "on_hold" => "PAUSED"
      | "dropped" => "DROPPED"
      | "plan_to_watch" => "PLANNING"
      | _ => "CURRENT"
    let status := if malEntry.ListStatus.IsRewatching then "REPEATING" else base
    { mediaId := malEntry.Node.ID
      episodes := malEntry.Node.NumEpisodes
      duration := 24
      titleRomaji := malEntry.Node.Title
      titleEnglish := malEntry.Node.Title
      titleNative := malEntry.Node.Title
      coverImageLarge := malEntry.Node.MainPictureLarge
      status := status
      score := malEntry.ListStatus.Score
      progress := malEntry.ListStatus.NumEpisodesWatched })

/-- The form fields that `UpdateMALAnimeStatus` PATCHes to MAL: the mapped
status string, plus the optional `finish_date` and `is_rewatching` fields. -/
structure MALStatusUpdateForm where
  status : String
  finish_date : Option String
  is_rewatching : Option String
deriving DecidableEq

/-- The request-body construction of `UpdateMALAnimeStatus` from
`myanimelist.go` (lines 694-727): map the AniList status to MAL's vocabulary
(a status outside the six cases leaves the empty string), stamp `finish_date`
with the current date for `COMPLETED`, and set `is_rewatching` for
`REPEATING`. -/
def UpdateMALAnimeStatusForm (status : String) (currentDate : String) :
    MALStatusUpdateForm :=
  let malStatus :=
    match status with
    | "CURRENT" => "watching"
    | "COMPLETED" => "completed"
    | "PAUSED" => "on_hold"
    | "DROPPED" => "dropped"
    | "PLANNING" => "plan_to_watch"
    | "REPEATING" => "watching"
    | _ => ""
  { status := malStatus
    finish_date := if status = "COMPLETED" then some currentDate else none
    is_rewatching := if status = "REPEATING" then some "true" else none }

/-- `RateAnimeMAL` from `myanimelist.go` (lines 763-818).  The global config,
the rofi input reader, and `fmt.Scanln` are modelled as parameters; `persist`
is the PATCH to `anime/<mediaID>/my_list_status` with the score, returning its
error.  The first result component lists the `(mediaID, score)` network writes
performed. -/
def RateAnimeMAL
    (hasConfig rofiSelection : Bool)
    (rofiInput : Except String String)
    (scanned : Int)
    (persist : Int → Int → Option String)
    (mediaID : Int) : List (Int × Int) × Option String :=
  if !hasConfig then
    ([], some "failed to get curd config")
  else
    let scoreE : Except String Int :=
      if rofiSelection then
        match rofiInput with
        | Except.error e => Except.error e
        | Except.ok input =>
          match goAtoi input with
          | none =>
            Except.error ("strconv.Atoi: parsing \"" ++ input ++ "\": invalid syntax")
          | some n => Except.ok n
      else Except.ok scanned
    match scoreE with
    | Except.error e => ([], some e)
    | Except.ok score =>
      if score < 0 ∨ score > 10 then
        ([], some "score must be between 0 and 10")
      else
        ([(mediaID, score)], persist mediaID score)

/-- One cross-reference network lookup performed by `ConvertIDIfNeeded`:
`GetAnimeMalID` (AniList ID to MAL ID) or `ConvertMALIDToAnilist`. -/
inductive IDLookup where
  | malIDOfAnilist (id : Int)
  | anilistIDOfMal (id : Int)
deriving DecidableEq

/-- `ConvertIDIfNeeded` from `tracking.go` (lines 263-277).  Go returns the
pair `(int, error)`; the lookup oracles return `(id, error)` pairs.  The first
component records which cross-reference lookups were issued. -/
def ConvertIDIfNeeded
    (getAnimeMalID convertMALIDToAnilist : Int → Int × Option String)
    (id : Int) (fromService toService : String) :
    List IDLookup × Int × Option String :=
  if fromService = toService then
    ([], id, none)
  else if fromService = "anilist" ∧ (toService = "mal" ∨ toService = "myanimelist") then
    ([IDLookup.malIDOfAnilist id], getAnimeMalID id)
  else if (fromService = "mal" ∨ fromService = "myanimelist") ∧ toService = "anilist" then
    ([IDLookup.anilistIDOfMal id], convertMALIDToAnilist id)
  else
    ([], id, some ("unsupported service conversion: " ++ fromService ++ " to " ++ toService))

/-! ## Theorems settling the claims -/

/-- Claim C5: for every media ID and every backend-name string `b`,
`ConvertIDIfNeeded id b b` returns `id` unchanged with no error and performs
no network lookup (the Translate identity law), whatever the two
cross-reference oracles do. -/
theorem c5_convert_id_identity
    (getAnimeMalID convertMALIDToAnilist : Int → Int × Option String)
    (id : Int) (b : String) :
    ConvertIDIfNeeded getAnimeMalID convertMALIDToAnilist id b b = ([], id, none) := by
  simp [ConvertIDIfNeeded]

/-- Claim C10: `UpdateAnimeProgressUnified` invokes only the resolved primary
backend's progress update, exactly once, and returns that single backend's
result, for every configuration — its behaviour is identical whether the
dual-tracking flag is set or not, and it performs exactly one invocation. -/
theorem c10_unified_progress_primary_only
    (updateMAL updateAnilist : String → Int → Int → Option String)
    (token : String) (mediaID progress : Int) (s : String) (b : Bool) :
    UpdateAnimeProgressUnified updateMAL updateAnilist token mediaID progress ⟨s, b⟩ =
      (if GetTrackingService ⟨s, b⟩ = "mal" then
        ([Backend.mal], updateMAL token mediaID progress)
      else
        ([Backend.anilist], updateAnilist token mediaID progress)) ∧
    UpdateAnimeProgressUnified updateMAL updateAnilist token mediaID progress ⟨s, true⟩ =
      UpdateAnimeProgressUnified updateMAL updateAnilist token mediaID progress ⟨s, false⟩ ∧
    (UpdateAnimeProgressUnified updateMAL updateAnilist token mediaID progress ⟨s, b⟩).1.length = 1 := by
  have h : ∀ c : CurdConfig,
      (if GetTrackingService c = "mal" then
        ([Backend.mal], updateMAL token mediaID progress)
      else
        ([Backend.anilist], updateAnilist token mediaID progress)).1.length = 1 := by
    intro c
    split <;> rfl
  refine ⟨?_, ?_, ?_⟩
  · cases b <;> rfl
  · rfl
  · cases b
    · exact h ⟨s, false⟩
    · exact h ⟨s, true⟩

/-- Claim C6: the canonical-status translation round-trips through the MAL
backend.  Writing each of the six canonical statuses with
`UpdateMALAnimeStatusForm` (whose `REPEATING` case sets MAL status `watching`
together with `is_rewatching`) and reading the stored status back through
`convertMALToAnilistFormat` yields the original canonical status, for all six
statuses including `REPEATING`. -/
theorem c6_status_roundtrip (currentDate : String) (node : MALNode)
    (score progress : Int) :
    (convertMALToAnilistFormat
        [⟨node, ⟨(UpdateMALAnimeStatusForm "CURRENT" currentDate).status, score, progress,
          (UpdateMALAnimeStatusForm "CURRENT" currentDate).is_rewatching == some "true"⟩⟩]).map
        (fun e => e.status) = ["CURRENT"] ∧
    (convertMALToAnilistFormat
        [⟨node, ⟨(UpdateMALAnimeStatusForm "COMPLETED" currentDate).status, score, progress,
          (UpdateMALAnimeStatusForm "COMPLETED" currentDate).is_rewatching == some "true"⟩⟩]).map
        (fun e => e.status) = ["COMPLETED"] ∧
    (convertMALToAnilistFormat
        [⟨node, ⟨(UpdateMALAnimeStatusForm "PAUSED" currentDate).status, score, progress,
          (UpdateMALAnimeStatusForm "PAUSED" currentDate).is_rewatching == some "true"⟩⟩]).map
        (fun e => e.status) = ["PAUSED"] ∧
    (convertMALToAnilistFormat
        [⟨node, ⟨(UpdateMALAnimeStatusForm "DROPPED" currentDate).status, score, progress,
          (UpdateMALAnimeStatusForm "DROPPED" currentDate).is_rewatching == some "true"⟩⟩]).map
        (fun e => e.status) = ["DROPPED"] ∧
    (convertMALToAnilistFormat
        [⟨node, ⟨(UpdateMALAnimeStatusForm "PLANNING" currentDate).status, score, progress,
          (UpdateMALAnimeStatusForm "PLANNING" currentDate).is_rewatching == some "true"⟩⟩]).map
        (fun e => e.status) = ["PLANNING"] ∧
    (convertMALToAnilistFormat
        [⟨node, ⟨(UpdateMALAnimeStatusForm "REPEATING" currentDate).status, score, progress,
          (UpdateMALAnimeStatusForm "REPEATING" currentDate).is_rewatching == some "true"⟩⟩]).map
        (fun e => e.status) = ["REPEATING"] := by
  refine ⟨?_, ?_, ?_, ?_, ?_, ?_⟩ <;> rfl

/-- Claim C9, counterexample.  `ConvertIDIfNeeded` does not case-normalize:
`"ANILIST" → "MAL"` — a recognized pair up to letter case — yields the
unsupported-conversion error and performs no lookup, although the same pair in
lower case does perform a lookup.  Moreover the all-lower-case recognized pair
`"mal" → "myanimelist"` also yields the unsupported-conversion error instead
of a conversion, refuting the claimed "exactly when ... unrecognized"
characterization. -/
theorem c9_counterexample :
    ConvertIDIfNeeded (fun i => (i + 100, none)) (fun i => (i + 200, none))
        7 "ANILIST" "MAL" =
      ([], 7, some "unsupported service conversion: ANILIST to MAL") ∧
    (ConvertIDIfNeeded (fun i => (i + 100, none)) (fun i => (i + 200, none))
        7 "anilist" "mal").1 = [IDLookup.malIDOfAnilist 7] ∧
    ConvertIDIfNeeded (fun i => (i + 100, none)) (fun i => (i + 200, none))
        7 "mal" "myanimelist" =
      ([], 7, some "unsupported service conversion: mal to myanimelist") := by
  refine ⟨rfl, rfl, rfl⟩

/-- Claim C9 as amended: in a cross-backend conversion (`fromService ≠
`toService`), `ConvertIDIfNeeded` compares backend names case-sensitively and
supports exactly the pairs `anilist→mal`, `anilist→myanimelist`,
`mal→anilist`, `myanimelist→anilist`, dispatching to the corresponding
cross-reference lookup; every other pair (including recognized names in
different letter case, and `mal`/`myanimelist` to each other) returns the
input ID together with the unsupported-conversion error and performs no
lookup. -/
theorem c9_case_sensitive_conversion
    (getAnimeMalID convertMALIDToAnilist : Int → Int × Option String)
    (id : Int) (fromService toService : String)
    (hne : fromService ≠ toService) :
    (fromService = "anilist" ∧ (toService = "mal" ∨ toService = "myanimelist") →
      ConvertIDIfNeeded getAnimeMalID convertMALIDToAnilist id fromService toService =
        ([IDLookup.malIDOfAnilist id], getAnimeMalID id)) ∧
    ((fromService = "mal" ∨ fromService = "myanimelist") ∧ toService = "anilist" →
      ConvertIDIfNeeded getAnimeMalID convertMALIDToAnilist id fromService toService =
        ([IDLookup.anilistIDOfMal id], convertMALIDToAnilist id)) ∧
    (¬(fromService = "anilist" ∧ (toService = "mal" ∨ toService = "myanimelist")) →
      ¬((fromService = "mal" ∨ fromService = "myanimelist") ∧ toService = "anilist") →
      ConvertIDIfNeeded getAnimeMalID convertMALIDToAnilist id fromService toService =
        ([], id, some ("unsupported service conversion: " ++ fromService ++ " to " ++ toService))) := by
  refine ⟨?_, ?_, ?_⟩
  · rintro ⟨hf, ht | ht⟩ <;> subst hf <;> subst ht <;> simp [ConvertIDIfNeeded]
  · rintro ⟨hf | hf, ht⟩ <;> subst hf <;> subst ht <;> simp [ConvertIDIfNeeded]
  · intro h1 h2
    simp [ConvertIDIfNeeded, hne, h1, h2]

/-- Witness for `c9_case_sensitive_conversion` at the concrete recognized
lower-case pair `"mal" → "myanimelist"`, which nevertheless fails. -/
theorem c9_case_sensitive_conversion_witness :
    ConvertIDIfNeeded (fun i => (i + 100, none)) (fun i => (i + 200, none))
        3 "mal" "myanimelist" =
      ([], 3, some "unsupported service conversion: mal to myanimelist") :=
  (c9_case_sensitive_conversion (fun i => (i + 100, none)) (fun i => (i + 200, none))
      3 "mal" "myanimelist" (by decide)).2.2 (by decide) (by decide)

/-- Claim C2, counterexample.  With `TrackingService = "mal"` the primary
backend is MAL and the secondary is AniList, yet when both backends fail the
aggregated message lists the MAL (primary) pair first: the two candidate
backends are always evaluated MAL first, AniList second, so the pairs are not
ordered "secondary backend first, then primary" as claimed. -/
theorem c2_counterexample :
    (UpdateAnimeProgressDual (fun _ _ _ => some "malfail") (fun _ _ _ => some "anifail")
        "atk" "mtk" 1 2 3 ⟨"mal", true⟩).2 =
      some "dual tracking errors: MAL: malfail; AniList: anifail" ∧
    ("dual tracking errors: MAL: malfail; AniList: anifail" : String) ≠
      "dual tracking errors: AniList: anifail; MAL: malfail" := by
  exact ⟨rfl, by decide⟩

/-- Claim C2 as amended: when dual tracking is enabled and at least one
invoked backend fails, the dual progress write returns the error
`dual tracking errors: ` followed by the `"<backend>: <error>"` pairs of the
failing backends joined by `"; "`, ordered in the fixed evaluation order MAL
first, then AniList — regardless of which backend the configuration resolves
as primary (this coincides with "secondary first, then primary" only in the
default configuration, whose primary is AniList). -/
theorem c2_fixed_aggregation_order
    (updateMAL updateAnilist : String → Int → Int → Option String)
    (anilistToken malToken : String) (anilistID malID progress : Int)
    (config : CurdConfig) (hdual : config.DualTracking = true)
    (herr :
      ((if malToken ≠ "" ∧ malID > 0 then
        match updateMAL malToken malID progress with
        | some e => ["MAL: " ++ e]
        | none => []
      else []) ++
      (if anilistToken ≠ "" ∧ anilistID > 0 then
        match updateAnilist anilistToken anilistID progress with
        | some e => ["AniList: " ++ e]
        | none => []
      else [])) ≠ []) :
    (UpdateAnimeProgressDual updateMAL updateAnilist
        anilistToken malToken anilistID malID progress config).2 =
      some ("dual tracking errors: " ++ String.intercalate "; "
        ((if malToken ≠ "" ∧ malID > 0 then
          match updateMAL malToken malID progress with
          | some e => ["MAL: " ++ e]
          | none => []
        else []) ++
        (if anilistToken ≠ "" ∧ anilistID > 0 then
          match updateAnilist anilistToken anilistID progress with
          | some e => ["AniList: " ++ e]
          | none => []
        else []))) := by
  by_cases hm : malToken ≠ "" ∧ malID > 0 <;>
    by_cases ha : anilistToken ≠ "" ∧ anilistID > 0 <;>
    rcases h1 : updateMAL malToken malID progress with _ | e1 <;>
    rcases h2 : updateAnilist anilistToken anilistID progress with _ | e2 <;>
    simp_all [UpdateAnimeProgressDual, -not_and]

/-- Witness for `c2_fixed_aggregation_order`: primary MAL, both backends
eligible and failing; the message carries the MAL pair first. -/
theorem c2_fixed_aggregation_order_witness :
    (UpdateAnimeProgressDual (fun _ _ _ => some "m") (fun _ _ _ => some "a")
        "atk" "mtk" 1 2 3 ⟨"mal", true⟩).2 =
      some "dual tracking errors: MAL: m; AniList: a" := by
  have h := c2_fixed_aggregation_order (fun _ _ _ => some "m") (fun _ _ _ => some "a")
      "atk" "mtk" 1 2 3 ⟨"mal", true⟩ rfl (by decide)
  exact h.trans (by decide)

/-- Claim C1: when dual tracking is enabled, each dual-write operation
(progress, status, rating) treats the two backends independently: a backend is
invoked exactly when its token is nonempty and its media ID is positive (the
invocation list does not depend on either adapter's outcome), and the
operation returns no error precisely when every invoked backend succeeded — in
particular a skipped backend contributes no failure. -/
theorem c1_dual_write_independence
    (updateMALProg updateAnilistProg : String → Int → Int → Option String)
    (updateMALStat updateAnilistStat : String → Int → String → Option String)
    (rateMAL rateAnilist : String → Int → Option String)
    (anilistToken malToken : String) (anilistID malID progress : Int)
    (status : String) (config : CurdConfig)
    (hdual : config.DualTracking = true) :
    ((UpdateAnimeProgressDual updateMALProg updateAnilistProg
        anilistToken malToken anilistID malID progress config).1 =
      (if malToken ≠ "" ∧ malID > 0 then [Backend.mal] else []) ++
      (if anilistToken ≠ "" ∧ anilistID > 0 then [Backend.anilist] else []) ∧
     ((UpdateAnimeProgressDual updateMALProg updateAnilistProg
        anilistToken malToken anilistID malID progress config).2 = none ↔
      ((malToken ≠ "" ∧ malID > 0) → updateMALProg malToken malID progress = none) ∧
      ((anilistToken ≠ "" ∧ anilistID > 0) → updateAnilistProg anilistToken anilistID progress = none))) ∧
    ((UpdateAnimeStatusDual updateMALStat updateAnilistStat
        anilistToken malToken anilistID malID status config).1 =
      (if malToken ≠ "" ∧ malID > 0 then [Backend.mal] else []) ++
      (if anilistToken ≠ "" ∧ anilistID > 0 then [Backend.anilist] else []) ∧
     ((UpdateAnimeStatusDual updateMALStat updateAnilistStat
        anilistToken malToken anilistID malID status config).2 = none ↔
      ((malToken ≠ "" ∧ malID > 0) → updateMALStat malToken malID status = none) ∧
      ((anilistToken ≠ "" ∧ anilistID > 0) → updateAnilistStat anilistToken anilistID status = none))) ∧
    ((RateAnimeDual rateMAL rateAnilist
        anilistToken malToken anilistID malID config).1 =
      (if malToken ≠ "" ∧ malID > 0 then [Backend.mal] else []) ++
      (if anilistToken ≠ "" ∧ anilistID > 0 then [Backend.anilist] else []) ∧
     ((RateAnimeDual rateMAL rateAnilist
        anilistToken malToken anilistID malID config).2 = none ↔
      ((malToken ≠ "" ∧ malID > 0) → rateMAL malToken malID = none) ∧
      ((anilistToken ≠ "" ∧ anilistID > 0) → rateAnilist anilistToken anilistID = none))) := by
  refine ⟨⟨?_, ?_⟩, ⟨?_, ?_⟩, ⟨?_, ?_⟩⟩
  · by_cases hm : malToken ≠ "" ∧ malID > 0 <;>
      by_cases ha : anilistToken ≠ "" ∧ anilistID > 0 <;>
      simp [UpdateAnimeProgressDual, hdual, hm, ha]
  · by_cases hm : malToken ≠ "" ∧ malID > 0 <;>
      by_cases ha : anilistToken ≠ "" ∧ anilistID > 0 <;>
      rcases h1 : updateMALProg malToken malID progress with _ | e1 <;>
      rcases h2 : updateAnilistProg anilistToken anilistID progress with _ | e2 <;>
      simp [UpdateAnimeProgressDual, hdual, hm, ha, h1, h2]
  · by_cases hm : malToken ≠ "" ∧ malID > 0 <;>
      by_cases ha : anilistToken ≠ "" ∧ anilistID > 0 <;>
      simp [UpdateAnimeStatusDual, hdual, hm, ha]
  · by_cases hm : malToken ≠ "" ∧ malID > 0 <;>
      by_cases ha : anilistToken ≠ "" ∧ anilistID > 0 <;>
      rcases h1 : updateMALStat malToken malID status with _ | e1 <;>
      rcases h2 : updateAnilistStat anilistToken anilistID status with _ | e2 <;>
      simp [UpdateAnimeStatusDual, hdual, hm, ha, h1, h2]
  · by_cases hm : malToken ≠ "" ∧ malID > 0 <;>
      by_cases ha : anilistToken ≠ "" ∧ anilistID > 0 <;>
      simp [RateAnimeDual, hdual, hm, ha]
  · by_cases hm : malToken ≠ "" ∧ malID > 0 <;>
      by_cases ha : anilistToken ≠ "" ∧ anilistID > 0 <;>
      rcases h1 : rateMAL malToken malID with _ | e1 <;>
      rcases h2 : rateAnilist anilistToken anilistID with _ | e2 <;>
      simp [RateAnimeDual, hdual, hm, ha, h1, h2]

/-- Witness for `c1_dual_write_independence`: AniList skipped (empty token,
its adapter would fail if called), MAL eligible and succeeding — exactly one
invocation and no error (skipping is not a failure). -/
theorem c1_dual_write_independence_witness :
    (UpdateAnimeProgressDual (fun _ _ _ => none) (fun _ _ _ => some "x")
        "" "mtk" 5 2 3 ⟨"anilist", true⟩).1 = [Backend.mal] ∧
    (UpdateAnimeProgressDual (fun _ _ _ => none) (fun _ _ _ => some "x")
        "" "mtk" 5 2 3 ⟨"anilist", true⟩).2 = none := by
  have h := c1_dual_write_independence (fun _ _ _ => none) (fun _ _ _ => some "x")
      (fun _ _ _ => none) (fun _ _ _ => none) (fun _ _ => none) (fun _ _ => none)
      "" "mtk" 5 2 3 "CURRENT" ⟨"anilist", true⟩ rfl
  constructor
  · rw [h.1.1]; decide
  · exact h.1.2.mpr ⟨fun _ => rfl, fun hc => absurd rfl hc.1⟩

/-- Claim C3: with dual tracking disabled, each dual-write entry point
resolves the single primary backend through `GetTrackingService` (lower-cased
name; `"mal"`/`"myanimelist"` select MAL, everything else — the empty string
included — defaults to AniList) and performs exactly that backend's adapter
call once, returning its result unmodified. -/
theorem c3_single_service_dispatch
    (updateMALProg updateAnilistProg : String → Int → Int → Option String)
    (updateMALStat updateAnilistStat : String → Int → String → Option String)
    (rateMAL rateAnilist : String → Int → Option String)
    (anilistToken malToken : String) (anilistID malID progress : Int)
    (status : String) (config : CurdConfig)
    (hsingle : config.DualTracking = false) :
    (GetTrackingService config = "mal" ∨ GetTrackingService config = "anilist") ∧
    (GetTrackingService config = "mal" ↔
      (goToLower config.TrackingService = "mal" ∨
       goToLower config.TrackingService = "myanimelist")) ∧
    (GetTrackingService config = "mal" →
      UpdateAnimeProgressDual updateMALProg updateAnilistProg
          anilistToken malToken anilistID malID progress config =
        ([Backend.mal], updateMALProg malToken malID progress) ∧
      UpdateAnimeStatusDual updateMALStat updateAnilistStat
          anilistToken malToken anilistID malID status config =
        ([Backend.mal], updateMALStat malToken malID status) ∧
      RateAnimeDual rateMAL rateAnilist
          anilistToken malToken anilistID malID config =
        ([Backend.mal], rateMAL malToken malID)) ∧
    (GetTrackingService config = "anilist" →
      UpdateAnimeProgressDual updateMALProg updateAnilistProg
          anilistToken malToken anilistID malID progress config =
        ([Backend.anilist], updateAnilistProg anilistToken anilistID progress) ∧
      UpdateAnimeStatusDual updateMALStat updateAnilistStat
          anilistToken malToken anilistID malID status config =
        ([Backend.anilist], updateAnilistStat anilistToken anilistID status) ∧
      RateAnimeDual rateMAL rateAnilist
          anilistToken malToken anilistID malID config =
        ([Backend.anilist], rateAnilist anilistToken anilistID)) := by
  refine ⟨?_, ?_, ?_, ?_⟩
  · by_cases hc : goToLower config.TrackingService = "mal" ∨
        goToLower config.TrackingService = "myanimelist" <;>
      simp [GetTrackingService, hc]
  · by_cases hc : goToLower config.TrackingService = "mal" ∨
        goToLower config.TrackingService = "myanimelist" <;>
      simp [GetTrackingService, hc]
  · intro hmal
    refine ⟨?_, ?_, ?_⟩ <;>
      simp [UpdateAnimeProgressDual, UpdateAnimeStatusDual, RateAnimeDual, hsingle, hmal]
  · intro hani
    have hnm : GetTrackingService config ≠ "mal" := by
      rw [hani]; decide
    refine ⟨?_, ?_, ?_⟩ <;>
      simp [UpdateAnimeProgressDual, UpdateAnimeStatusDual, RateAnimeDual, hsingle, hnm]

/-- Witness for `c3_single_service_dispatch`: the configuration
`{TrackingService := "MAL", DualTracking := false}` resolves (case-
insensitively) to the MAL backend, and the dual progress entry point returns
exactly the MAL adapter's error. -/
theorem c3_single_service_dispatch_witness :
    UpdateAnimeProgressDual (fun _ _ _ => some "boom") (fun _ _ _ => none)
        "atk" "mtk" 5 2 3 ⟨"MAL", false⟩ = ([Backend.mal], some "boom") := by
  have h := c3_single_service_dispatch (fun _ _ _ => some "boom") (fun _ _ _ => none)
      (fun _ _ _ => none) (fun _ _ _ => none) (fun _ _ => none) (fun _ _ => none)
      "atk" "mtk" 5 2 3 "CURRENT" ⟨"MAL", false⟩ rfl
  have hm : GetTrackingService ⟨"MAL", false⟩ = "mal" := by decide
  exact (h.2.2.1 hm).1

/-- The six category lists of an `AnimeList` concatenated in the fixed scan
order of `FindAnimeByIDUnified`. -/
def allCategoryEntries (list : AnimeList) : List Entry :=
  list.Watching ++ list.Completed ++ list.Paused ++ list.Dropped ++
    list.Planning ++ list.Rewatching

theorem findInCategories_eq_find? (cats : List (List Entry)) (id : Int) :
    findInCategories cats id =
      cats.flatten.find? (fun entry => entry.Media.ID == id) := by
  induction cats with
  | nil => rfl
  | cons c rest ih =>
    simp only [findInCategories, List.flatten_cons, List.find?_append, ih]
    cases c.find? (fun entry => entry.Media.ID == id) <;> simp

/-- Claim C4: `FindAnimeByIDUnified` fails with the invalid-ID error when the
identifier text does not parse as an integer; otherwise it returns the first
entry, in the fixed category order Watching, Completed, Paused, Dropped,
Planning, Rewatching, whose media ID equals the parsed integer, and fails with
the not-found error when no category contains it. -/
theorem c4_find_anime_by_id (list : AnimeList) (idStr : String) :
    (goAtoi idStr = none →
      FindAnimeByIDUnified list idStr =
        Except.error ("invalid ID format: " ++ idStr)) ∧
    (∀ id : Int, goAtoi idStr = some id →
      FindAnimeByIDUnified list idStr =
        match (allCategoryEntries list).find? (fun entry => entry.Media.ID == id) with
        | some entry => Except.ok entry
        | none => Except.error ("anime with ID " ++ toString id ++ " not found")) := by
  constructor
  · intro h
    simp [FindAnimeByIDUnified, h]
  · intro id h
    have hflat :
        ([list.Watching, list.Completed, list.Paused, list.Dropped,
          list.Planning, list.Rewatching] : List (List Entry)).flatten =
          allCategoryEntries list := by
      simp [allCategoryEntries, List.append_assoc]
    simp only [FindAnimeByIDUnified, h]
    rw [findInCategories_eq_find?, hflat]

/-- Witness for `c4_find_anime_by_id`: non-numeric text is rejected; an ID
present in both Watching and Dropped yields the Watching entry; an ID absent
from an empty list yields the not-found error. -/
theorem c4_find_anime_by_id_witness :
    FindAnimeByIDUnified
        ⟨[⟨⟨5⟩, "watching copy"⟩], [], [], [⟨⟨5⟩, "dropped copy"⟩], [], []⟩
        "notanumber" =
      Except.error "invalid ID format: notanumber" ∧
    FindAnimeByIDUnified
        ⟨[⟨⟨5⟩, "watching copy"⟩], [], [], [⟨⟨5⟩, "dropped copy"⟩], [], []⟩ "5" =
      Except.ok ⟨⟨5⟩, "watching copy"⟩ ∧
    FindAnimeByIDUnified ⟨[], [], [], [], [], []⟩ "999999" =
      Except.error "anime with ID 999999 not found" := by
  refine ⟨?_, ?_, ?_⟩
  · exact (c4_find_anime_by_id
      ⟨[⟨⟨5⟩, "watching copy"⟩], [], [], [⟨⟨5⟩, "dropped copy"⟩], [], []⟩
      "notanumber").1 rfl
  · have h := (c4_find_anime_by_id
      ⟨[⟨⟨5⟩, "watching copy"⟩], [], [], [⟨⟨5⟩, "dropped copy"⟩], [], []⟩ "5").2 5 rfl
    exact h.trans (by rfl)
  · have h := (c4_find_anime_by_id ⟨[], [], [], [], [], []⟩ "999999").2 999999 rfl
    exact h.trans (by rfl)

/-- Claim C8: `RateAnimeMAL` validates the externally supplied score before
any network request: a resolved score outside `[0, 10]` produces the
validation error with no network write, and a score inside the range is
persisted verbatim, on both the rofi input path and the scan input path. -/
theorem c8_rate_score_validation
    (rofiSelection : Bool) (rofiInput : Except String String)
    (scanned : Int) (persist : Int → Int → Option String) (mediaID : Int)
    (input : String) (score : Int) :
    (rofiSelection = true → rofiInput = Except.ok input →
      goAtoi input = some score →
      ((score < 0 ∨ score > 10) →
        RateAnimeMAL true rofiSelection rofiInput scanned persist mediaID =
          ([], some "score must be between 0 and 10")) ∧
      (0 ≤ score → score ≤ 10 →
        RateAnimeMAL true rofiSelection rofiInput scanned persist mediaID =
          ([(mediaID, score)], persist mediaID score))) ∧
    (rofiSelection = false →
      ((scanned < 0 ∨ scanned > 10) →
        RateAnimeMAL true rofiSelection rofiInput scanned persist mediaID =
          ([], some "score must be between 0 and 10")) ∧
      (0 ≤ scanned → scanned ≤ 10 →
        RateAnimeMAL true rofiSelection rofiInput scanned persist mediaID =
          ([(mediaID, scanned)], persist mediaID scanned))) := by
  constructor
  · intro hr hi ha
    constructor
    · intro hout
      simp [RateAnimeMAL, hr, hi, ha, hout]
    · intro h0 h10
      have hin : ¬(score < 0 ∨ score > 10) := by omega
      simp [RateAnimeMAL, hr, hi, ha, hin]
  · intro hr
    constructor
    · intro hout
      simp [RateAnimeMAL, hr, hout]
    · intro h0 h10
      have hin : ¬(scanned < 0 ∨ scanned > 10) := by omega
      simp [RateAnimeMAL, hr, hin]

/-- Witness for `c8_rate_score_validation`: rofi input `"11"` is rejected
with the validation error and no network write; `"7"` is persisted verbatim. -/
theorem c8_rate_score_validation_witness :
    RateAnimeMAL true true (Except.ok "11") 0 (fun _ _ => none) 42 =
      ([], some "score must be between 0 and 10") ∧
    RateAnimeMAL true true (Except.ok "7") 0 (fun _ _ => none) 42 =
      ([(42, 7)], none) := by
  constructor
  · exact ((c8_rate_score_validation true (Except.ok "11") 0 (fun _ _ => none)
      42 "11" 11).1 rfl rfl rfl).1 (by decide)
  · exact ((c8_rate_score_validation true (Except.ok "7") 0 (fun _ _ => none)
      42 "7" 7).1 rfl rfl rfl).2 (by decide) (by decide)

end Curd
